import Mathlib

/-!
Verification development for a small database-wrapper library.

The library has three parts:
- `Row` / `Rows`: typed, index-based access to the tuples a database
  adapter returned (source file `query.ts`);
- `SyncDatabase` over a `SyncAdapter` (source file `sync.ts`);
- `AsyncDatabase` over an `AsyncAdapter` (source file `async.ts`).

The embedding below is a shallow one: JavaScript dynamic values become the
inductive `Value`, a thrown `Error` becomes the `Except.error` channel, a
rejected `Promise` likewise becomes the `Except.error` channel, and JS
numbers are modelled as rationals (every finite JS number is rational;
`Number.isInteger` becomes "denominator = 1").
-/

/--
Value models a dynamically typed JavaScript column value as it can appear
in an adapter result row: a string, a (finite) number, a bigint, a boolean,
a `Uint8Array` (modelled as a list of bytes), `null`, or `undefined`
(what JS array indexing yields out of range).
-/
inductive Value where
  | str (s : String)
  | num (q : ℚ)
  | bigint (n : ℤ)
  | bool (b : Bool)
  | bytes (bs : List Nat)
  | null
  | undefined
deriving DecidableEq, Repr

/-- Model of the JS `typeof` operator on a `Value` (note `typeof null` is `"object"`, and a `Uint8Array` is an `"object"`). -/
def Value.typeof : Value → String
  | .str _ => "string"
  | .num _ => "number"
  | .bigint _ => "bigint"
  | .bool _ => "boolean"
  | .bytes _ => "object"
  | .null => "object"
  | .undefined => "undefined"

/-- Model of the JS strict comparison `value === null`. -/
def Value.isNull : Value → Bool
  | .null => true
  | _ => false

/-- Model of the JS check `value instanceof Uint8Array`. -/
def Value.isUint8Array : Value → Bool
  | .bytes _ => true
  | _ => false

/-- Model of JS `Number.isInteger(value)`: true exactly for a number value that is mathematically integral. -/
def Value.isIntegerNumber : Value → Bool
  | .num q => q.den == 1
  | _ => false

/-- Model of the JS conversion `BigInt(value)` as used in the source: it is only reached on an integral number, which it widens losslessly. On any other value we leave the value unchanged (that branch is unreachable in the source). -/
def Value.toWide : Value → Value
  | .num q => Value.bigint q.num
  | v => v

/--
JSError models an error surfaced by the library. In the source every throw
site builds a plain `new Error(message)`; the constructors here tag the
spec-level kind of each throw site, and `message` keeps the exact source
message, which determines the kind one-to-one:
- `typeMismatch`: a typed `Row` accessor rejected the value's kind;
- `noRows`: `queryOneOrThrow` saw an empty result;
- `adapterFailure`: an error produced by the caller-supplied adapter,
  propagated unchanged.
-/
inductive JSError where
  | typeMismatch (message : String)
  | noRows (message : String)
  | adapterFailure (message : String)
deriving DecidableEq, Repr

instance instDecEqExcept {ε α : Type} [DecidableEq ε] [DecidableEq α] :
    DecidableEq (Except ε α) := fun a b =>
  match a, b with
  | .ok x, .ok y =>
      if h : x = y then .isTrue (by rw [h]) else .isFalse (by simp [h])
  | .error x, .error y =>
      if h : x = y then .isTrue (by rw [h]) else .isFalse (by simp [h])
  | .ok _, .error _ => .isFalse (by simp)
  | .error _, .ok _ => .isFalse (by simp)

/-- Decidable check that a computation failed with a TypeMismatch error (any message). -/
def failsTypeMismatch {α : Type} : Except JSError α → Bool
  | .error (.typeMismatch _) => true
  | _ => false

/-- Decidable check that a computation failed with a NoRows error (any message). -/
def failsNoRows {α : Type} : Except JSError α → Bool
  | .error (.noRows _) => true
  | _ => false

/-- Row wraps one result tuple: an ordered list of column values (field `result` in the source). -/
structure Row where
  result : List Value
deriving DecidableEq, Repr

/-- Row.get returns the raw value at `index` with no type check: JS `this.result[index]`, which yields `undefined` for any index outside `[0, length)`. -/
def Row.get (r : Row) (index : ℤ) : Value :=
  if 0 ≤ index then r.result.getD index.toNat Value.undefined else Value.undefined

/-- Row.stringNullable: value must be a string or null, else throw `Not a string or null`. -/
def Row.stringNullable (r : Row) (index : ℤ) : Except JSError Value :=
  let value := r.get index
  if value.typeof != "string" && !value.isNull then
    .error (.typeMismatch "Not a string or null")
  else
    .ok value

/-- Row.string: value must be a string, else throw `Not a string`. -/
def Row.string (r : Row) (index : ℤ) : Except JSError Value :=
  let value := r.get index
  if value.typeof != "string" then
    .error (.typeMismatch "Not a string")
  else
    .ok value

/-- Row.numberNullable: value must be a number or null, else throw `Not a number or null`. -/
def Row.numberNullable (r : Row) (index : ℤ) : Except JSError Value :=
  let value := r.get index
  if value.typeof != "number" && !value.isNull then
    .error (.typeMismatch "Not a number or null")
  else
    .ok value

/-- Row.number: value must be a number, else throw `Not a number`. -/
def Row.number (r : Row) (index : ℤ) : Except JSError Value :=
  let value := r.get index
  if value.typeof != "number" then
    .error (.typeMismatch "Not a number")
  else
    .ok value

/-- Row.bigintNullable: an integral number is widened to bigint; otherwise the value must be a bigint or null, else throw `Not an integer or null`. -/
def Row.bigintNullable (r : Row) (index : ℤ) : Except JSError Value :=
  let value := r.get index
  if value.typeof == "number" && value.isIntegerNumber then
    .ok value.toWide
  else if value.typeof != "bigint" && !value.isNull then
    .error (.typeMismatch "Not an integer or null")
  else
    .ok value

/-- Row.bigint: an integral number is widened to bigint; otherwise the value must be a bigint, else throw `Not an integer`. -/
def Row.bigint (r : Row) (index : ℤ) : Except JSError Value :=
  let value := r.get index
  if value.typeof == "number" && value.isIntegerNumber then
    .ok value.toWide
  else if value.typeof != "bigint" then
    .error (.typeMismatch "Not an integer")
  else
    .ok value

/-- Row.booleanNullable: value must be a boolean or null, else throw `Not a boolean or null`. -/
def Row.booleanNullable (r : Row) (index : ℤ) : Except JSError Value :=
  let value := r.get index
  if value.typeof != "boolean" && !value.isNull then
    .error (.typeMismatch "Not a boolean or null")
  else
    .ok value

/-- Row.boolean: value must be a boolean, else throw `Not a boolean`. -/
def Row.boolean (r : Row) (index : ℤ) : Except JSError Value :=
  let value := r.get index
  if value.typeof != "boolean" then
    .error (.typeMismatch "Not a boolean")
  else
    .ok value

/-- Row.bytesNullable: value must be a Uint8Array or null, else throw `Not an Uint8Array or null`. -/
def Row.bytesNullable (r : Row) (index : ℤ) : Except JSError Value :=
  let value := r.get index
  if !value.isUint8Array && !value.isNull then
    .error (.typeMismatch "Not an Uint8Array or null")
  else
    .ok value

/-- Row.bytes: value must be a Uint8Array, else throw `Not an Uint8Array`. -/
def Row.bytes (r : Row) (index : ℤ) : Except JSError Value :=
  let value := r.get index
  if !value.isUint8Array then
    .error (.typeMismatch "Not an Uint8Array")
  else
    .ok value

/-- Rows wraps the raw query result: a list of tuples, one per result row (field `result` in the source). -/
structure Rows where
  result : List (List Value)
deriving DecidableEq, Repr

/-- Rows.count returns the number of result rows: JS `this.result.length`. -/
def Rows.count (rs : Rows) : Nat :=
  rs.result.length

/-- RowsIter models one generator instance produced by the `Symbol.iterator` method of `Rows`: it holds the backing `Rows` (never mutated) and the current position of the `for...of` loop inside the generator body. -/
structure RowsIter where
  rows : Rows
  pos : Nat
deriving DecidableEq, Repr

/-- Rows.iter models requesting a fresh iterator from a `Rows`: the generator starts at the beginning of the backing list. -/
def Rows.iter (rs : Rows) : RowsIter :=
  { rows := rs, pos := 0 }

/-- RowsIter.next models one resumption of the generator: if a tuple remains it yields `new Row(item)` and advances, otherwise the generator is done. The backing `Rows` is left untouched. -/
def RowsIter.next (it : RowsIter) : Option Row × RowsIter :=
  if h : it.pos < it.rows.result.length then
    (some (Row.mk (it.rows.result.get ⟨it.pos, h⟩)), { it with pos := it.pos + 1 })
  else
    (none, it)

/-- RowsIter.collect drains an iterator for at most `fuel` steps, returning the rows yielded (a `for...of` loop over the iterator). -/
def RowsIter.collect : RowsIter → Nat → List Row
  | _, 0 => []
  | it, fuel + 1 =>
    match it.next with
    | (none, _) => []
    | (some r, it') => r :: it'.collect fuel

/-- SyncAdapter is the caller-supplied synchronous capability: `query` returns the raw tuples and `execute` an adapter-defined result. Either may throw, modelled by the `Except.error` channel (`adapterFailure` or any other error the adapter chooses). -/
structure SyncAdapter (ExecuteResult : Type) where
  query : String → List Value → Except JSError (List (List Value))
  execute : String → List Value → Except JSError ExecuteResult

/-- SyncDatabase wraps a synchronous adapter (field `adapter` in the source). -/
structure SyncDatabase (ExecuteResult : Type) where
  adapter : SyncAdapter ExecuteResult

/-- SyncDatabase.queryOne runs the adapter query and returns `null` for an empty result, otherwise a Row wrapping `result[0]`. -/
def SyncDatabase.queryOne {E : Type} (db : SyncDatabase E) (statement : String)
    (params : List Value) : Except JSError (Option Row) := do
  let result ← db.adapter.query statement params
  if result.length < 1 then
    return none
  return some (Row.mk (result.getD 0 []))

/-- SyncDatabase.queryOneOrThrow runs `queryOne` and throws `Query did not return any rows` when it returned null. -/
def SyncDatabase.queryOneOrThrow {E : Type} (db : SyncDatabase E) (statement : String)
    (params : List Value) : Except JSError Row := do
  let row ← db.queryOne statement params
  match row with
  | none => Except.error (JSError.noRows "Query did not return any rows")
  | some row => return row

/-- SyncDatabase.query runs the adapter query and wraps the whole result in a `Rows`. -/
def SyncDatabase.query {E : Type} (db : SyncDatabase E) (statement : String)
    (params : List Value) : Except JSError Rows := do
  let result ← db.adapter.query statement params
  return Rows.mk result

/-- SyncDatabase.execute forwards to the adapter's execute operation unchanged. -/
def SyncDatabase.execute {E : Type} (db : SyncDatabase E) (statement : String)
    (params : List Value) : Except JSError E :=
  db.adapter.execute statement params

/-- AsyncAdapter is the caller-supplied asynchronous capability: the same two operations, with each Promise modelled by its settled outcome — `Except.ok` for a resolution, `Except.error` for a rejection. -/
structure AsyncAdapter (ExecuteResult : Type) where
  query : String → List Value → Except JSError (List (List Value))
  execute : String → List Value → Except JSError ExecuteResult

/-- AsyncDatabase wraps an asynchronous adapter (field `adapter` in the source). -/
structure AsyncDatabase (ExecuteResult : Type) where
  adapter : AsyncAdapter ExecuteResult

/-- AsyncDatabase.queryOne awaits the adapter query, resolving to `null` for an empty result and otherwise to a Row wrapping `result[0]`; an adapter rejection propagates. -/
def AsyncDatabase.queryOne {E : Type} (db : AsyncDatabase E) (statement : String)
    (params : List Value) : Except JSError (Option Row) := do
  let result ← db.adapter.query statement params
  if result.length < 1 then
    return none
  return some (Row.mk (result.getD 0 []))

/-- AsyncDatabase.queryOneOrThrow awaits `queryOne` and rejects with `Query did not return any rows` when it resolved to null. -/
def AsyncDatabase.queryOneOrThrow {E : Type} (db : AsyncDatabase E) (statement : String)
    (params : List Value) : Except JSError Row := do
  let row ← db.queryOne statement params
  match row with
  | none => Except.error (JSError.noRows "Query did not return any rows")
  | some row => return row

/-- AsyncDatabase.query awaits the adapter query and resolves to a `Rows` wrapping the whole result. -/
def AsyncDatabase.query {E : Type} (db : AsyncDatabase E) (statement : String)
    (params : List Value) : Except JSError Rows := do
  let result ← db.adapter.query statement params
  return Rows.mk result

/-- AsyncDatabase.execute awaits the adapter's execute operation and resolves to its result unchanged. -/
def AsyncDatabase.execute {E : Type} (db : AsyncDatabase E) (statement : String)
    (params : List Value) : Except JSError E :=
  db.adapter.execute statement params

/-- Helper: a guarded accessor body succeeds with `v` exactly when the guard is off and the value is `v`. -/
theorem ite_error_ok_iff (b : Bool) (err : JSError) (x v : Value) :
    ((if b then Except.error err else Except.ok x) = Except.ok v) ↔ (x = v ∧ b = false) := by
  cases b <;> simp

/-- C1 counterexample: the claim says a nullable accessor returns null for an out-of-range index, but on the concrete row `[str "a"]` at index 1 (outside `[0, 1)`) `stringNullable` throws a TypeMismatch instead of returning null: JS array indexing yields `undefined` there, and `undefined !== null`, so the `value !== null` escape does not fire. -/
theorem C1_out_of_range_counterexample :
    ¬ ((Row.mk [Value.str "a"]).stringNullable 1 = Except.ok Value.null) := by
  decide

/-- C1 (amended): for every index outside `[0, length)`, `get` yields the absent value (undefined), and EVERY typed accessor — nullable and non-nullable alike — fails with TypeMismatch; out-of-range access is therefore not folded into the nullable-absent path, because `undefined` is distinguishable from `null` under the strict comparison the accessors use. -/
theorem C1_out_of_range_accessors (r : Row) (i : ℤ)
    (h : i < 0 ∨ (r.result.length : ℤ) ≤ i) :
    r.get i = Value.undefined ∧
    failsTypeMismatch (r.stringNullable i) = true ∧
    failsTypeMismatch (r.numberNullable i) = true ∧
    failsTypeMismatch (r.bigintNullable i) = true ∧
    failsTypeMismatch (r.booleanNullable i) = true ∧
    failsTypeMismatch (r.bytesNullable i) = true ∧
    failsTypeMismatch (r.string i) = true ∧
    failsTypeMismatch (r.number i) = true ∧
    failsTypeMismatch (r.bigint i) = true ∧
    failsTypeMismatch (r.boolean i) = true ∧
    failsTypeMismatch (r.bytes i) = true := by
  have hget : r.get i = Value.undefined := by
    unfold Row.get
    rcases h with h | h
    · rw [if_neg (by omega)]
    · rw [if_pos (by omega)]
      exact List.getD_eq_default _ _ (by omega)
  refine ⟨hget, ?_, ?_, ?_, ?_, ?_, ?_, ?_, ?_, ?_, ?_⟩ <;>
    simp [Row.stringNullable, Row.numberNullable, Row.bigintNullable, Row.booleanNullable,
      Row.bytesNullable, Row.string, Row.number, Row.bigint, Row.boolean, Row.bytes, hget,
      Value.typeof, Value.isNull, Value.isIntegerNumber, Value.isUint8Array, failsTypeMismatch]

/-- C1 witness: the amended theorem applied to the empty row at index 0, which is outside `[0, 0)`. -/
theorem C1_out_of_range_accessors_witness :
    ((0:ℤ) < 0 ∨ (((Row.mk ([] : List Value)).result.length : ℤ) ≤ 0)) ∧
    ((Row.mk ([] : List Value)).get 0 = Value.undefined ∧
     failsTypeMismatch ((Row.mk ([] : List Value)).stringNullable 0) = true ∧
     failsTypeMismatch ((Row.mk ([] : List Value)).numberNullable 0) = true ∧
     failsTypeMismatch ((Row.mk ([] : List Value)).bigintNullable 0) = true ∧
     failsTypeMismatch ((Row.mk ([] : List Value)).booleanNullable 0) = true ∧
     failsTypeMismatch ((Row.mk ([] : List Value)).bytesNullable 0) = true ∧
     failsTypeMismatch ((Row.mk ([] : List Value)).string 0) = true ∧
     failsTypeMismatch ((Row.mk ([] : List Value)).number 0) = true ∧
     failsTypeMismatch ((Row.mk ([] : List Value)).bigint 0) = true ∧
     failsTypeMismatch ((Row.mk ([] : List Value)).boolean 0) = true ∧
     failsTypeMismatch ((Row.mk ([] : List Value)).bytes 0) = true) :=
  ⟨Or.inr (by decide),
   C1_out_of_range_accessors (Row.mk ([] : List Value)) 0 (Or.inr (by decide))⟩

/-- C2: bigint coercion — an integral number widens losslessly to bigint, a bigint passes through, and every other kind (non-integral number, string, boolean, bytes, undefined) fails with TypeMismatch; `bigintNullable` behaves identically except that it returns null when the value is null, where `bigint` fails with TypeMismatch. -/
theorem C2_bigint_coercion (r : Row) (i : ℤ) :
    (∀ q : ℚ, r.get i = Value.num q → q.den = 1 →
      r.bigint i = .ok (Value.bigint q.num) ∧
      r.bigintNullable i = .ok (Value.bigint q.num)) ∧
    (∀ q : ℚ, r.get i = Value.num q → q.den ≠ 1 →
      failsTypeMismatch (r.bigint i) = true ∧
      failsTypeMismatch (r.bigintNullable i) = true) ∧
    (∀ n : ℤ, r.get i = Value.bigint n →
      r.bigint i = .ok (Value.bigint n) ∧
      r.bigintNullable i = .ok (Value.bigint n)) ∧
    (∀ s : String, r.get i = Value.str s →
      failsTypeMismatch (r.bigint i) = true ∧
      failsTypeMismatch (r.bigintNullable i) = true) ∧
    (∀ b : Bool, r.get i = Value.bool b →
      failsTypeMismatch (r.bigint i) = true ∧
      failsTypeMismatch (r.bigintNullable i) = true) ∧
    (∀ bs : List Nat, r.get i = Value.bytes bs →
      failsTypeMismatch (r.bigint i) = true ∧
      failsTypeMismatch (r.bigintNullable i) = true) ∧
    (r.get i = Value.undefined →
      failsTypeMismatch (r.bigint i) = true ∧
      failsTypeMismatch (r.bigintNullable i) = true) ∧
    (r.get i = Value.null →
      failsTypeMismatch (r.bigint i) = true ∧
      r.bigintNullable i = .ok Value.null) := by
  refine ⟨fun q h hq => ?_, fun q h hq => ?_, fun n h => ?_, fun s h => ?_,
    fun b h => ?_, fun bs h => ?_, fun h => ?_, fun h => ?_⟩ <;>
    simp_all [Row.bigint, Row.bigintNullable, Value.typeof, Value.isNull,
      Value.isIntegerNumber, Value.toWide, failsTypeMismatch]

/-- C2 witness: the theorem applied to concrete rows holding the integral number 42, the non-integral number 9/2, and null. -/
theorem C2_bigint_coercion_witness :
    ((Row.mk [Value.num 42]).get 0 = Value.num 42 ∧ (42 : ℚ).den = 1 ∧
      (Row.mk [Value.num 42]).bigint 0 = .ok (Value.bigint (42 : ℚ).num) ∧
      (Row.mk [Value.num 42]).bigintNullable 0 = .ok (Value.bigint (42 : ℚ).num)) ∧
    ((Row.mk [Value.num (mkRat 9 2)]).get 0 = Value.num (mkRat 9 2) ∧ (mkRat 9 2).den ≠ 1 ∧
      failsTypeMismatch ((Row.mk [Value.num (mkRat 9 2)]).bigint 0) = true ∧
      failsTypeMismatch ((Row.mk [Value.num (mkRat 9 2)]).bigintNullable 0) = true) ∧
    ((Row.mk [Value.null]).get 0 = Value.null ∧
      failsTypeMismatch ((Row.mk [Value.null]).bigint 0) = true ∧
      (Row.mk [Value.null]).bigintNullable 0 = .ok Value.null) :=
  ⟨⟨by decide, by decide,
    ((C2_bigint_coercion (Row.mk [Value.num 42]) 0).1 42 (by decide) (by decide)).1,
    ((C2_bigint_coercion (Row.mk [Value.num 42]) 0).1 42 (by decide) (by decide)).2⟩,
   ⟨by decide, by decide,
    ((C2_bigint_coercion (Row.mk [Value.num (mkRat 9 2)]) 0).2.1 (mkRat 9 2)
      (by decide) (by decide)).1,
    ((C2_bigint_coercion (Row.mk [Value.num (mkRat 9 2)]) 0).2.1 (mkRat 9 2)
      (by decide) (by decide)).2⟩,
   ⟨by decide,
    ((C2_bigint_coercion (Row.mk [Value.null]) 0).2.2.2.2.2.2.2 (by decide)).1,
    ((C2_bigint_coercion (Row.mk [Value.null]) 0).2.2.2.2.2.2.2 (by decide)).2⟩⟩

/-- C3: whenever position i holds null, every nullable accessor returns null and every non-nullable accessor fails with a TypeMismatch error (so a non-nullable accessor never returns null). -/
theorem C3_null_value_accessors (r : Row) (i : ℤ) (h : r.get i = Value.null) :
    r.stringNullable i = .ok Value.null ∧
    r.numberNullable i = .ok Value.null ∧
    r.bigintNullable i = .ok Value.null ∧
    r.booleanNullable i = .ok Value.null ∧
    r.bytesNullable i = .ok Value.null ∧
    failsTypeMismatch (r.string i) = true ∧
    failsTypeMismatch (r.number i) = true ∧
    failsTypeMismatch (r.bigint i) = true ∧
    failsTypeMismatch (r.boolean i) = true ∧
    failsTypeMismatch (r.bytes i) = true := by
  simp [Row.stringNullable, Row.numberNullable, Row.bigintNullable, Row.booleanNullable,
    Row.bytesNullable, Row.string, Row.number, Row.bigint, Row.boolean, Row.bytes, h,
    Value.typeof, Value.isNull, Value.isIntegerNumber, Value.isUint8Array, failsTypeMismatch]

/-- C3 witness: the theorem applied to the concrete row holding a single null column, at index 0. -/
theorem C3_null_value_accessors_witness :
    (Row.mk [Value.null]).get 0 = Value.null ∧
    ((Row.mk [Value.null]).stringNullable 0 = .ok Value.null ∧
     (Row.mk [Value.null]).numberNullable 0 = .ok Value.null ∧
     (Row.mk [Value.null]).bigintNullable 0 = .ok Value.null ∧
     (Row.mk [Value.null]).booleanNullable 0 = .ok Value.null ∧
     (Row.mk [Value.null]).bytesNullable 0 = .ok Value.null ∧
     failsTypeMismatch ((Row.mk [Value.null]).string 0) = true ∧
     failsTypeMismatch ((Row.mk [Value.null]).number 0) = true ∧
     failsTypeMismatch ((Row.mk [Value.null]).bigint 0) = true ∧
     failsTypeMismatch ((Row.mk [Value.null]).boolean 0) = true ∧
     failsTypeMismatch ((Row.mk [Value.null]).bytes 0) = true) :=
  ⟨by decide, C3_null_value_accessors (Row.mk [Value.null]) 0 (by decide)⟩

/-- C4: the typed accessors perform no implicit conversion besides the bigint widening — `string`, `number`, `boolean`, `bytes` succeed exactly when the value already has the requested kind, and then return that exact value; a text value makes `number`/`boolean`/`bytes` fail with TypeMismatch, and a numeric value makes `boolean` fail with TypeMismatch. -/
theorem C4_exact_kind_accessors (r : Row) (i : ℤ) :
    (∀ v, r.string i = .ok v ↔ (r.get i = v ∧ v.typeof = "string")) ∧
    (∀ v, r.number i = .ok v ↔ (r.get i = v ∧ v.typeof = "number")) ∧
    (∀ v, r.boolean i = .ok v ↔ (r.get i = v ∧ v.typeof = "boolean")) ∧
    (∀ v, r.bytes i = .ok v ↔ (r.get i = v ∧ v.isUint8Array = true)) ∧
    (∀ s, r.get i = Value.str s →
      r.string i = .ok (Value.str s) ∧
      failsTypeMismatch (r.number i) = true ∧
      failsTypeMismatch (r.boolean i) = true ∧
      failsTypeMismatch (r.bytes i) = true) ∧
    (∀ q : ℚ, r.get i = Value.num q → failsTypeMismatch (r.boolean i) = true) := by
  refine ⟨fun v => ?_, fun v => ?_, fun v => ?_, fun v => ?_, fun s h => ?_, fun q h => ?_⟩
  · simp only [Row.string, ite_error_ok_iff]
    constructor
    · rintro ⟨rfl, hb⟩
      exact ⟨rfl, by simpa using hb⟩
    · rintro ⟨rfl, ht⟩
      simp [ht]
  · simp only [Row.number, ite_error_ok_iff]
    constructor
    · rintro ⟨rfl, hb⟩
      exact ⟨rfl, by simpa using hb⟩
    · rintro ⟨rfl, ht⟩
      simp [ht]
  · simp only [Row.boolean, ite_error_ok_iff]
    constructor
    · rintro ⟨rfl, hb⟩
      exact ⟨rfl, by simpa using hb⟩
    · rintro ⟨rfl, ht⟩
      simp [ht]
  · simp only [Row.bytes, ite_error_ok_iff]
    constructor
    · rintro ⟨rfl, hb⟩
      exact ⟨rfl, by simpa using hb⟩
    · rintro ⟨rfl, ht⟩
      simp [ht]
  · simp [Row.string, Row.number, Row.boolean, Row.bytes, h, Value.typeof,
      Value.isUint8Array, failsTypeMismatch]
  · simp [Row.boolean, h, Value.typeof, failsTypeMismatch]

/-- C10: nullable/non-nullable coherence — whenever a non-nullable accessor succeeds with v, the corresponding nullable accessor succeeds with the same v; and whenever a nullable accessor returns a non-null v, the non-nullable accessor succeeds with the same v. -/
theorem C10_nullable_coherence (r : Row) (i : ℤ) :
    (∀ v, r.string i = .ok v → r.stringNullable i = .ok v) ∧
    (∀ v, v ≠ Value.null → r.stringNullable i = .ok v → r.string i = .ok v) ∧
    (∀ v, r.number i = .ok v → r.numberNullable i = .ok v) ∧
    (∀ v, v ≠ Value.null → r.numberNullable i = .ok v → r.number i = .ok v) ∧
    (∀ v, r.bigint i = .ok v → r.bigintNullable i = .ok v) ∧
    (∀ v, v ≠ Value.null → r.bigintNullable i = .ok v → r.bigint i = .ok v) ∧
    (∀ v, r.boolean i = .ok v → r.booleanNullable i = .ok v) ∧
    (∀ v, v ≠ Value.null → r.booleanNullable i = .ok v → r.boolean i = .ok v) ∧
    (∀ v, r.bytes i = .ok v → r.bytesNullable i = .ok v) ∧
    (∀ v, v ≠ Value.null → r.bytesNullable i = .ok v → r.bytes i = .ok v) := by
  refine ⟨fun v h => ?_, fun v hne h => ?_, fun v h => ?_, fun v hne h => ?_,
    fun v h => ?_, fun v hne h => ?_, fun v h => ?_, fun v hne h => ?_,
    fun v h => ?_, fun v hne h => ?_⟩ <;>
  · rcases hv : r.get i with s | q | n | b | bs | - | -
    all_goals try simp_all [Row.string, Row.stringNullable, Row.number, Row.numberNullable,
      Row.bigint, Row.bigintNullable, Row.boolean, Row.booleanNullable,
      Row.bytes, Row.bytesNullable, Value.typeof, Value.isNull,
      Value.isIntegerNumber, Value.toWide, Value.isUint8Array]
    all_goals try subst_vars
    all_goals try split_ifs at *
    all_goals simp_all [Value.typeof, Value.isNull, Value.isUint8Array]

/-- C10 witness: the theorem applied to a row holding a string (forward direction) and a row holding a boolean (reverse direction, with a non-null value). -/
theorem C10_nullable_coherence_witness :
    ((Row.mk [Value.str "x"]).string 0 = Except.ok (Value.str "x")) ∧
    ((Row.mk [Value.str "x"]).stringNullable 0 = Except.ok (Value.str "x")) ∧
    (Value.bool true ≠ Value.null) ∧
    ((Row.mk [Value.bool true]).booleanNullable 0 = Except.ok (Value.bool true)) ∧
    ((Row.mk [Value.bool true]).boolean 0 = Except.ok (Value.bool true)) :=
  ⟨by decide,
   (C10_nullable_coherence (Row.mk [Value.str "x"]) 0).1 (Value.str "x") (by decide),
   by decide,
   by decide,
   (C10_nullable_coherence (Row.mk [Value.bool true]) 0).2.2.2.2.2.2.2.1
     (Value.bool true) (by decide) (by decide)⟩

/-- C5: for an adapter query that yields `result`, `queryOne` — sync and async alike — yields null when `result` is empty and otherwise a Row wrapping exactly the first tuple, ignoring any further tuples. -/
theorem C5_queryOne_first_row (E : Type) (sa : SyncAdapter E) (aa : AsyncAdapter E)
    (s : String) (p : List Value) (result : List (List Value))
    (hs : sa.query s p = .ok result) (ha : aa.query s p = .ok result) :
    (result.length = 0 →
      (SyncDatabase.mk sa).queryOne s p = .ok none ∧
      (AsyncDatabase.mk aa).queryOne s p = .ok none) ∧
    (∀ t ts, result = t :: ts →
      (SyncDatabase.mk sa).queryOne s p = .ok (some (Row.mk t)) ∧
      (AsyncDatabase.mk aa).queryOne s p = .ok (some (Row.mk t))) := by
  constructor
  · intro h0
    have : result = [] := List.length_eq_zero.mp h0
    subst this
    simp [SyncDatabase.queryOne, AsyncDatabase.queryOne, hs, ha, Bind.bind,
      Except.bind, Pure.pure, Except.pure]
  · rintro t ts rfl
    simp [SyncDatabase.queryOne, AsyncDatabase.queryOne, hs, ha, Bind.bind,
      Except.bind, Pure.pure, Except.pure]

/-- C5 witness: the theorem applied to concrete adapters returning two rows, of which only the first is wrapped. -/
theorem C5_queryOne_first_row_witness :
    ((SyncAdapter.mk (fun _ _ => Except.ok [[Value.num 7, Value.str "x"], [Value.num 8, Value.str "y"]])
        (fun _ _ => Except.ok ()) : SyncAdapter Unit).query "q" [] =
      .ok [[Value.num 7, Value.str "x"], [Value.num 8, Value.str "y"]]) ∧
    ((AsyncAdapter.mk (fun _ _ => Except.ok [[Value.num 7, Value.str "x"], [Value.num 8, Value.str "y"]])
        (fun _ _ => Except.ok ()) : AsyncAdapter Unit).query "q" [] =
      .ok [[Value.num 7, Value.str "x"], [Value.num 8, Value.str "y"]]) ∧
    ((SyncDatabase.mk (SyncAdapter.mk (fun _ _ => Except.ok [[Value.num 7, Value.str "x"], [Value.num 8, Value.str "y"]])
        (fun _ _ => Except.ok ()) : SyncAdapter Unit)).queryOne "q" [] =
      .ok (some (Row.mk [Value.num 7, Value.str "x"])) ∧
     (AsyncDatabase.mk (AsyncAdapter.mk (fun _ _ => Except.ok [[Value.num 7, Value.str "x"], [Value.num 8, Value.str "y"]])
        (fun _ _ => Except.ok ()) : AsyncAdapter Unit)).queryOne "q" [] =
      .ok (some (Row.mk [Value.num 7, Value.str "x"]))) :=
  ⟨rfl, rfl,
   (C5_queryOne_first_row Unit
      (SyncAdapter.mk (fun _ _ => Except.ok [[Value.num 7, Value.str "x"], [Value.num 8, Value.str "y"]])
        (fun _ _ => Except.ok ()))
      (AsyncAdapter.mk (fun _ _ => Except.ok [[Value.num 7, Value.str "x"], [Value.num 8, Value.str "y"]])
        (fun _ _ => Except.ok ()))
      "q" [] [[Value.num 7, Value.str "x"], [Value.num 8, Value.str "y"]] rfl rfl).2
     [Value.num 7, Value.str "x"] [[Value.num 8, Value.str "y"]] rfl⟩

/-- C6: `queryOneOrThrow` fails with a NoRows error exactly when the adapter query yielded zero rows (the failure travelling on the throw channel for the sync facade and on the rejection channel for the async facade), and otherwise returns the same Row `queryOne` yields. -/
theorem C6_queryOneOrThrow_noRows (E : Type) (sa : SyncAdapter E) (aa : AsyncAdapter E)
    (s : String) (p : List Value) (result : List (List Value))
    (hs : sa.query s p = .ok result) (ha : aa.query s p = .ok result) :
    (failsNoRows ((SyncDatabase.mk sa).queryOneOrThrow s p) = true ↔ result.length = 0) ∧
    (failsNoRows ((AsyncDatabase.mk aa).queryOneOrThrow s p) = true ↔ result.length = 0) ∧
    (∀ row : Row, (SyncDatabase.mk sa).queryOne s p = .ok (some row) →
      (SyncDatabase.mk sa).queryOneOrThrow s p = .ok row) ∧
    (∀ row : Row, (AsyncDatabase.mk aa).queryOne s p = .ok (some row) →
      (AsyncDatabase.mk aa).queryOneOrThrow s p = .ok row) := by
  cases result with
  | nil =>
    refine ⟨?_, ?_, ?_, ?_⟩ <;>
      simp [SyncDatabase.queryOne, SyncDatabase.queryOneOrThrow,
        AsyncDatabase.queryOne, AsyncDatabase.queryOneOrThrow, hs, ha, failsNoRows,
        Bind.bind, Except.bind, Pure.pure, Except.pure]
  | cons t ts =>
    refine ⟨?_, ?_, ?_, ?_⟩ <;>
      simp [SyncDatabase.queryOne, SyncDatabase.queryOneOrThrow,
        AsyncDatabase.queryOne, AsyncDatabase.queryOneOrThrow, hs, ha, failsNoRows,
        Bind.bind, Except.bind, Pure.pure, Except.pure]

/-- C6 witness: the theorem applied to concrete adapters returning zero rows (NoRows failure) — plus the one-row side checked through the same theorem at a second adapter. -/
theorem C6_queryOneOrThrow_noRows_witness :
    ((SyncAdapter.mk (fun _ _ => Except.ok ([] : List (List Value)))
        (fun _ _ => Except.ok ()) : SyncAdapter Unit).query "q" [] = .ok []) ∧
    (failsNoRows ((SyncDatabase.mk (SyncAdapter.mk (fun _ _ => Except.ok ([] : List (List Value)))
        (fun _ _ => Except.ok ()) : SyncAdapter Unit)).queryOneOrThrow "q" []) = true ↔
      ([] : List (List Value)).length = 0) ∧
    (failsNoRows ((AsyncDatabase.mk (AsyncAdapter.mk (fun _ _ => Except.ok ([] : List (List Value)))
        (fun _ _ => Except.ok ()) : AsyncAdapter Unit)).queryOneOrThrow "q" []) = true ↔
      ([] : List (List Value)).length = 0) :=
  ⟨rfl,
   (C6_queryOneOrThrow_noRows Unit
      (SyncAdapter.mk (fun _ _ => Except.ok ([] : List (List Value))) (fun _ _ => Except.ok ()))
      (AsyncAdapter.mk (fun _ _ => Except.ok ([] : List (List Value))) (fun _ _ => Except.ok ()))
      "q" [] [] rfl rfl).1,
   (C6_queryOneOrThrow_noRows Unit
      (SyncAdapter.mk (fun _ _ => Except.ok ([] : List (List Value))) (fun _ _ => Except.ok ()))
      (AsyncAdapter.mk (fun _ _ => Except.ok ([] : List (List Value))) (fun _ _ => Except.ok ()))
      "q" [] [] rfl rfl).2.1⟩

/-- Helper: draining an iterator positioned at `pos` with enough fuel yields one Row per remaining tuple, in order. -/
theorem collect_eq_drop_map (l : List (List Value)) (fuel : Nat) :
    ∀ pos : Nat, l.length ≤ pos + fuel →
      RowsIter.collect (RowsIter.mk (Rows.mk l) pos) fuel = (l.drop pos).map Row.mk := by
  induction fuel with
  | zero =>
    intro pos h
    rw [RowsIter.collect, List.drop_eq_nil_of_le (by simpa using h), List.map_nil]
  | succ fuel ih =>
    intro pos h
    by_cases hpos : pos < l.length
    · rw [RowsIter.collect]
      simp only [RowsIter.next, Rows.mk, dif_pos hpos]
      rw [ih (pos + 1) (by omega)]
      rw [List.drop_eq_getElem_cons hpos, List.map_cons]
      rfl
    · rw [RowsIter.collect]
      simp only [RowsIter.next, dif_neg hpos]
      rw [List.drop_eq_nil_of_le (by omega), List.map_nil]

/-- C7: `count` equals the number of underlying tuples; a fresh iteration yields exactly one Row per tuple in adapter order (with `count` steps, or any larger fuel); and stepping an iterator never modifies the backing data, which is why each fresh iteration request replays the same rows from the beginning. -/
theorem C7_rows_iteration (result : List (List Value)) :
    (Rows.mk result).count = result.length ∧
    RowsIter.collect ((Rows.mk result).iter) ((Rows.mk result).count) = result.map Row.mk ∧
    (∀ fuel : Nat, result.length ≤ fuel →
      RowsIter.collect ((Rows.mk result).iter) fuel = result.map Row.mk) ∧
    (∀ it : RowsIter, (it.next).2.rows = it.rows) := by
  refine ⟨rfl, ?_, fun fuel hf => ?_, fun it => ?_⟩
  · have := collect_eq_drop_map result result.length 0 (by omega)
    simpa [Rows.iter, Rows.count] using this
  · have := collect_eq_drop_map result fuel 0 (by omega)
    simpa [Rows.iter] using this
  · rw [RowsIter.next]
    split <;> rfl

/-- C7 witness: the theorem applied to the three-row result from the spec example, iterated with exact fuel and with surplus fuel, plus backing-data preservation at a concrete mid-iteration state. -/
theorem C7_rows_iteration_witness :
    (Rows.mk [[Value.num 1, Value.str "a"], [Value.num 2, Value.str "b"],
        [Value.num 3, Value.str "c"]]).count = 3 ∧
    RowsIter.collect ((Rows.mk [[Value.num 1, Value.str "a"], [Value.num 2, Value.str "b"],
        [Value.num 3, Value.str "c"]]).iter) 3 =
      [Row.mk [Value.num 1, Value.str "a"], Row.mk [Value.num 2, Value.str "b"],
        Row.mk [Value.num 3, Value.str "c"]] ∧
    ((3 : Nat) ≤ 5 ∧
      RowsIter.collect ((Rows.mk [[Value.num 1, Value.str "a"], [Value.num 2, Value.str "b"],
          [Value.num 3, Value.str "c"]]).iter) 5 =
        [Row.mk [Value.num 1, Value.str "a"], Row.mk [Value.num 2, Value.str "b"],
          Row.mk [Value.num 3, Value.str "c"]]) ∧
    ((RowsIter.mk (Rows.mk [[Value.num 1, Value.str "a"], [Value.num 2, Value.str "b"],
        [Value.num 3, Value.str "c"]]) 1).next.2.rows =
      Rows.mk [[Value.num 1, Value.str "a"], [Value.num 2, Value.str "b"],
        [Value.num 3, Value.str "c"]]) :=
  ⟨(C7_rows_iteration [[Value.num 1, Value.str "a"], [Value.num 2, Value.str "b"],
      [Value.num 3, Value.str "c"]]).1,
   (C7_rows_iteration [[Value.num 1, Value.str "a"], [Value.num 2, Value.str "b"],
      [Value.num 3, Value.str "c"]]).2.1,
   ⟨by decide,
    (C7_rows_iteration [[Value.num 1, Value.str "a"], [Value.num 2, Value.str "b"],
      [Value.num 3, Value.str "c"]]).2.2.1 5 (by decide)⟩,
   (C7_rows_iteration [[Value.num 1, Value.str "a"], [Value.num 2, Value.str "b"],
      [Value.num 3, Value.str "c"]]).2.2.2
     (RowsIter.mk (Rows.mk [[Value.num 1, Value.str "a"], [Value.num 2, Value.str "b"],
        [Value.num 3, Value.str "c"]]) 1)⟩

/-- C8: round-trip — for every tuple and in-range index, the Row built from the tuple returns the tuple's element itself from `get`, with no copying or coercion. -/
theorem C8_round_trip (tuple : List Value) (i : Nat) (h : i < tuple.length) :
    (Row.mk tuple).get (i : ℤ) = tuple[i] := by
  rw [Row.get, if_pos (Int.natCast_nonneg i)]
  simp [List.getD_eq_getElem?_getD, List.getElem?_eq_getElem h]

/-- C8 witness: the theorem applied to a concrete two-column tuple at both indices. -/
theorem C8_round_trip_witness :
    ((0 : Nat) < ([Value.num 7, Value.str "x"] : List Value).length ∧
      (Row.mk [Value.num 7, Value.str "x"]).get ((0 : Nat) : ℤ) = Value.num 7) ∧
    ((1 : Nat) < ([Value.num 7, Value.str "x"] : List Value).length ∧
      (Row.mk [Value.num 7, Value.str "x"]).get ((1 : Nat) : ℤ) = Value.str "x") :=
  ⟨⟨by decide, C8_round_trip [Value.num 7, Value.str "x"] 0 (by decide)⟩,
   ⟨by decide, C8_round_trip [Value.num 7, Value.str "x"] 1 (by decide)⟩⟩

/-- C9: the async facade is logically equivalent to the sync facade — over adapters exhibiting the same behaviour (the same query outcome and the same execute outcome per statement and params), every operation of `AsyncDatabase` settles with exactly the outcome the corresponding `SyncDatabase` operation produces, resolution and rejection alike. -/
theorem C9_async_sync_equivalence (E : Type)
    (q : String → List Value → Except JSError (List (List Value)))
    (e : String → List Value → Except JSError E)
    (s : String) (p : List Value) :
    (AsyncDatabase.mk (AsyncAdapter.mk q e)).query s p =
      (SyncDatabase.mk (SyncAdapter.mk q e)).query s p ∧
    (AsyncDatabase.mk (AsyncAdapter.mk q e)).queryOne s p =
      (SyncDatabase.mk (SyncAdapter.mk q e)).queryOne s p ∧
    (AsyncDatabase.mk (AsyncAdapter.mk q e)).queryOneOrThrow s p =
      (SyncDatabase.mk (SyncAdapter.mk q e)).queryOneOrThrow s p ∧
    (AsyncDatabase.mk (AsyncAdapter.mk q e)).execute s p =
      (SyncDatabase.mk (SyncAdapter.mk q e)).execute s p :=
  ⟨rfl, rfl, rfl, rfl⟩

/-- C4 witness: the theorem applied to a row holding a text value (exact string returned, the other accessors fail) and to a row holding a numeric value (no numeric-to-boolean conversion). -/
theorem C4_exact_kind_accessors_witness :
    ((Row.mk [Value.str "x"]).get 0 = Value.str "x" ∧
      ((Row.mk [Value.str "x"]).string 0 = Except.ok (Value.str "x") ∧
       failsTypeMismatch ((Row.mk [Value.str "x"]).number 0) = true ∧
       failsTypeMismatch ((Row.mk [Value.str "x"]).boolean 0) = true ∧
       failsTypeMismatch ((Row.mk [Value.str "x"]).bytes 0) = true)) ∧
    ((Row.mk [Value.num 1]).get 0 = Value.num 1 ∧
      failsTypeMismatch ((Row.mk [Value.num 1]).boolean 0) = true) :=
  ⟨⟨by decide,
    (C4_exact_kind_accessors (Row.mk [Value.str "x"]) 0).2.2.2.2.1 "x" (by decide)⟩,
   ⟨by decide,
    (C4_exact_kind_accessors (Row.mk [Value.num 1]) 0).2.2.2.2.2 1 (by decide)⟩⟩
